import Mathlib

/-!
# Verification of the study-agent spaced-repetition core

A shallow embedding, in Lean 4, of the scheduling / performance-tracking /
session-lifecycle / repository-sync logic of the `study-agent` repository
(`src/study_agent/application/services/study_manager.py`,
`src/study_agent/application/services/github_service.py`, and the
repositories and clients they call), together with theorems settling the
spec's claims about that logic.

Conventions of the embedding:

* Python `datetime` values are modelled as integers counting seconds
  (`DateTime := Int`); `timedelta(days = d)` is `d * 86400` seconds, and
  `timedelta.days` is floor division of the total seconds by 86400, which is
  exactly Python's normalisation of `timedelta`.
* Python floats holding scores and averages are modelled as rationals `ℚ`.
  Python's `int(x)` truncates toward zero (`pyInt`); all inputs the code
  feeds to `int(...)` here are nonnegative, where truncation equals `⌊·⌋`.
* The two `datetime.utcnow()` calls made during one metrics update
  (`_update_performance_metrics` line 282 and `_calculate_next_review`
  line 317) are modelled as the same instant `now`.
* External collaborators (the Gemini LLM client, the GitHub content client)
  are modelled by passing their results in as arguments — an `Except` value
  where the Python client raises, an `Option` where it may return `None`.
* Database state touched by an operation is passed in and returned
  explicitly; SQL `NULL` becomes `Option.none`, and the SQL comparison
  `next_review_at <= now` is false on `NULL`, as in SQLite/SQLAlchemy.
-/

namespace StudyAgent

/-- Timestamps in seconds; `datetime` values of the Python source. -/
abbrev DateTime := Int

/-- `(a - b).days` for Python datetimes `a`, `b`: `timedelta` normalises so
that `.days` is the floor of the total seconds divided by 86400. -/
def daysBetween (a b : DateTime) : Int :=
  (a - b).fdiv 86400

/-- `t + timedelta(days = d)`. -/
def addDays (t : DateTime) (d : Int) : DateTime :=
  t + d * 86400

/-- Python's `int()` applied to a number: truncation toward zero. -/
def pyInt (q : ℚ) : Int :=
  q.num.tdiv (q.den : Int)

/-- Modelled from the spec: the module `study_agent/config/constants.py` is
imported by the services but is not among the sources; the spec (§4.1) gives
this design default (0.9) for the excellent-score threshold. -/
def EXCELLENT_SCORE_THRESHOLD : ℚ := 9 / 10

/-- Modelled from the spec: default 0.6 for the good-score threshold
(missing `study_agent/config/constants.py`). -/
def GOOD_SCORE_THRESHOLD : ℚ := 6 / 10

/-- Modelled from the spec: default 2.5 for the excellent interval
multiplier (missing `study_agent/config/constants.py`). -/
def EXCELLENT_MULTIPLIER : ℚ := 5 / 2

/-- Modelled from the spec: default 1.5 for the good interval multiplier
(missing `study_agent/config/constants.py`). -/
def GOOD_MULTIPLIER : ℚ := 3 / 2

/-  `INITIAL_INTERVAL_DAYS` and `MIN_TOPIC_LENGTH_WORDS` also live in the
missing `constants.py`, and the spec assigns them no numeric default; they
are therefore kept as explicit parameters of every definition that uses
them, written `INITIAL_INTERVAL_DAYS` / `MIN_TOPIC_LENGTH_WORDS` below. -/

namespace StudyManager

/-- `StudyManager._calculate_next_review` (study_manager.py 293–317):
three-tier spaced repetition; `int(...)` truncates the scaled interval, and
a poor score resets to the initial interval. -/
def calculate_next_review (INITIAL_INTERVAL_DAYS : ℕ) (score : ℚ)
    (last_interval_days : Int) (now : DateTime) : DateTime :=
  let next_interval : Int :=
    if EXCELLENT_SCORE_THRESHOLD ≤ score then
      pyInt ((last_interval_days : ℚ) * EXCELLENT_MULTIPLIER)
    else if GOOD_SCORE_THRESHOLD ≤ score then
      pyInt ((last_interval_days : ℚ) * GOOD_MULTIPLIER)
    else
      (INITIAL_INTERVAL_DAYS : Int)
  addDays now next_interval

/-- `StudyManager._get_last_interval_days` (study_manager.py 319–336):
the stored interval, clamped from below by the initial interval; the initial
interval whenever either timestamp is `None`. -/
def get_last_interval_days (INITIAL_INTERVAL_DAYS : ℕ)
    (last_studied next_review : Option DateTime) : Int :=
  match last_studied, next_review with
  | some ls, some nr => max (daysBetween nr ls) (INITIAL_INTERVAL_DAYS : Int)
  | _, _ => (INITIAL_INTERVAL_DAYS : Int)

end StudyManager

/-- Row of the `performance_metrics` table, one per `(user_id, topic_id)`
(`infrastructure/database/models.py`); `Option` fields are SQL-nullable. -/
structure PerformanceMetricsModel where
  user_id : ℕ
  topic_id : ℕ
  total_sessions : ℕ
  total_correct : Int
  total_questions : ℕ
  average_score : ℚ
  last_studied_at : Option DateTime
  next_review_at : Option DateTime
  deriving Repr, DecidableEq

/-- Row of the `assessments` table (`infrastructure/database/models.py`):
created unanswered, mutated by answer evaluation. -/
structure AssessmentModel where
  session_id : ℕ
  question : String
  correct_answer : Option String
  user_answer : Option String
  score : Option ℚ
  is_correct : Option Bool
  llm_feedback : Option String
  answered_at : Option DateTime
  deriving Repr, DecidableEq

/-- Row of the `study_sessions` table (`infrastructure/database/models.py`). -/
structure StudySessionModel where
  id : ℕ
  user_id : ℕ
  topic_id : ℕ
  session_type : String
  status : String
  started_at : DateTime
  completed_at : Option DateTime
  deriving Repr, DecidableEq

namespace StudyManager

/-- The zero-valued metrics row `_update_performance_metrics` creates when
no row exists for `(user_id, topic_id)` (study_manager.py 263–272). -/
def freshMetrics (user_id topic_id : ℕ) : PerformanceMetricsModel :=
  { user_id := user_id, topic_id := topic_id, total_sessions := 0,
    total_correct := 0, total_questions := 0, average_score := 0,
    last_studied_at := none, next_review_at := none }

/-- `StudyManager._update_performance_metrics` (study_manager.py 240–291).
`existing` is the row found for `(user_id, topic_id)`, `none` when absent.
Mirrors the source's mutation order: `total_sessions`, `total_questions`
and `total_correct` are bumped, the running mean is recomputed from the
already-incremented `total_sessions`, and — exactly as in the source —
`last_studied_at` is overwritten with `now` *before* the stored-interval
derivation reads it (line 282 precedes the call on line 287). -/
def update_performance_metrics (INITIAL_INTERVAL_DAYS : ℕ)
    (existing : Option PerformanceMetricsModel) (user_id topic_id : ℕ)
    (score : ℚ) (num_questions : ℕ) (now : DateTime) :
    PerformanceMetricsModel :=
  let m := existing.getD (freshMetrics user_id topic_id)
  let total_sessions := m.total_sessions + 1
  let total_questions := m.total_questions + num_questions
  let total_correct := m.total_correct + pyInt ((num_questions : ℚ) * score)
  let average_score :=
    (m.average_score * ((total_sessions - 1 : ℕ) : ℚ) + score)
      / (total_sessions : ℚ)
  let last_studied_at : Option DateTime := some now
  let next_review :=
    calculate_next_review INITIAL_INTERVAL_DAYS score
      (get_last_interval_days INITIAL_INTERVAL_DAYS last_studied_at m.next_review_at)
      now
  { m with total_sessions := total_sessions,
           total_questions := total_questions,
           total_correct := total_correct,
           average_score := average_score,
           last_studied_at := last_studied_at,
           next_review_at := some next_review }

/-- `StudyManager.complete_session` (study_manager.py 196–238): the session
score is the mean over answered assessments (`score is not None`), 0.0 when
none; the session row is set to `completed` unconditionally — the source has
no check of the current status — and the metrics row is updated. Returns
(average score, updated session row, updated metrics row). -/
def complete_session (INITIAL_INTERVAL_DAYS : ℕ) (sess : StudySessionModel)
    (assessments : List AssessmentModel)
    (metrics : Option PerformanceMetricsModel) (now : DateTime) :
    ℚ × StudySessionModel × PerformanceMetricsModel :=
  let answered_scores := assessments.filterMap (fun a => a.score)
  let avg_score : ℚ :=
    if answered_scores.isEmpty then 0
    else answered_scores.sum / (answered_scores.length : ℚ)
  let sess' := { sess with status := "completed", completed_at := some now }
  let metrics' :=
    update_performance_metrics INITIAL_INTERVAL_DAYS metrics
      sess.user_id sess.topic_id avg_score answered_scores.length now
  (avg_score, sess', metrics')

/-- Result of the external grading collaborator
(`GeminiClient.evaluate_answer`). -/
structure Evaluation where
  score : ℚ
  is_correct : Bool
  feedback : String
  deriving Repr, DecidableEq

/-- `StudyManager.evaluate_answer` (study_manager.py 149–194): the grading
collaborator's verdict (an input here) is written into the assessment row
unconditionally — the source checks neither `answered_at` nor the parent
session's status, so a resubmission overwrites the stored evaluation. -/
def evaluate_answer (assessment : AssessmentModel) (user_answer : String)
    (evaluation : Evaluation) (now : DateTime) : AssessmentModel :=
  { assessment with user_answer := some user_answer,
                    score := some evaluation.score,
                    is_correct := some evaluation.is_correct,
                    llm_feedback := some evaluation.feedback,
                    answered_at := some now }

/-- One `{"question": ..., "answer": ...}` item returned by the
question-generation collaborator (`GeminiClient.generate_quiz_questions`). -/
structure QuestionAnswer where
  question : String
  answer : String
  deriving Repr, DecidableEq

/-- The exception `GeminiClient` raises when a Gemini call fails
(`core/exceptions.py`, `LLMServiceError`). -/
structure LLMServiceError where
  message : String
  deriving Repr, DecidableEq

/-- `StudyManager.generate_quiz_questions` (study_manager.py 88–147) with
the collaborator's outcome passed in: a raised `LLMServiceError` propagates;
a returned list — empty included — yields one unanswered assessment per
item, with no emptiness check anywhere in the source. -/
def generate_quiz_questions (session_id : ℕ)
    (gemini_result : Except LLMServiceError (List QuestionAnswer)) :
    Except LLMServiceError (List AssessmentModel) :=
  match gemini_result with
  | .error e => .error e
  | .ok questions =>
      .ok (questions.map (fun q =>
        { session_id := session_id, question := q.question,
          correct_answer := some q.answer, user_answer := none,
          score := none, is_correct := none, llm_feedback := none,
          answered_at := none }))

/-- `StudyManager.get_topics_for_review` (study_manager.py 338–356) /
`PerformanceMetricsRepository.get_topics_for_review`
(performance_metrics_repository.py 167–184): the SQL filter
`user_id == user AND next_review_at <= now`; a `NULL` timestamp fails the
comparison, so such rows are excluded. Pure read over the table's rows. -/
def get_topics_for_review (rows : List PerformanceMetricsModel)
    (user_id : ℕ) (now : DateTime) : List ℕ :=
  (rows.filter (fun m =>
    m.user_id == user_id &&
      match m.next_review_at with
      | some t => decide (t ≤ now)
      | none => false)).map (fun m => m.topic_id)

end StudyManager

/-- `count_words` (core/utils.py): `len(text.split())` — the number of
maximal whitespace-separated runs. -/
def count_words (text : String) : ℕ :=
  ((text.split Char.isWhitespace).filter (fun w => w ≠ "")).length

/-- Row of the `topics` table, the fields `GitHubService.sync_repository`
writes (`infrastructure/database/models.py`, `TopicRepository.create`). -/
structure TopicRow where
  repository_id : ℕ
  title : String
  content : String
  content_hash : String
  file_paths : List String
  deriving Repr, DecidableEq

/-- One item of `GitHubClient.get_repository_contents`' listing: a path and
its git object type (`"blob"` for files). -/
structure GithubItem where
  path : String
  type : String
  deriving Repr, DecidableEq

/-- How a `GitHubClient.get_file_content` call can raise
(`core/exceptions.py`): `RepositoryNotFoundError` — the only class the
per-file loop in `sync_repository` catches — or any other exception. -/
inductive FetchError where
  | notFound (msg : String)
  | other (msg : String)
  deriving Repr, DecidableEq

/-- One `{title, description, files}` grouping returned by the
topic-extraction collaborator (`GeminiClient.get_repository_topics`). -/
structure LLMTopic where
  title : String
  files : List String
  deriving Repr, DecidableEq

/-- The exception class `GitHubService.sync_repository` surfaces on any
failure (`core/exceptions.py`, `RepositoryError`). -/
structure RepositoryError where
  message : String
  deriving Repr, DecidableEq

/-- The stored state `sync_repository` may mutate: the `topics` table (all
repositories) and the synced repository's `last_synced_at` column. -/
structure SyncState where
  topics : List TopicRow
  last_synced_at : Option DateTime
  deriving Repr, DecidableEq

namespace GitHubService

/-- The markdown section `sync_repository` builds for one fetched file
(github_service.py 98–101): fenced by the file's lowercased extension
(`file_path.split(".")[-1].lower()`). -/
def sectionFor (file_path content : String) : String :=
  let ext := (((file_path.splitOn ".").getLastD "").toLower)
  "## File " ++ file_path ++ "\n```" ++ ext ++ "\n" ++ content ++ "\n```"

/-- The per-topic file loop of `sync_repository` (github_service.py
89–105): fetch each constituent file, skipping it on
`RepositoryNotFoundError`, aborting on any other error, and keeping a
section only when the content reaches `MIN_TOPIC_LENGTH_WORDS` words. -/
def buildSections (MIN_TOPIC_LENGTH_WORDS : ℕ)
    (fetchFile : String → Except FetchError String) :
    List String → Except FetchError (List String)
  | [] => .ok []
  | p :: rest =>
    match fetchFile p with
    | .error (.notFound _) => buildSections MIN_TOPIC_LENGTH_WORDS fetchFile rest
    | .error e => .error e
    | .ok content =>
      (buildSections MIN_TOPIC_LENGTH_WORDS fetchFile rest).map (fun sections =>
        if MIN_TOPIC_LENGTH_WORDS ≤ count_words content then
          sectionFor p content :: sections
        else
          sections)

/-- The candidate-topic construction of `sync_repository` (github_service.py
87–114): for every LLM grouping, build its sections and keep the topic only
when at least one file survived the length filter; the content hash (an
opaque `hashFn` standing for `hashlib.sha256(...).hexdigest()`) is taken
over the undelimited concatenation, the content over the `"\n\n"`-joined
sections. -/
def buildTopics (MIN_TOPIC_LENGTH_WORDS : ℕ) (hashFn : String → String)
    (repo_id : ℕ) (fetchFile : String → Except FetchError String) :
    List LLMTopic → Except FetchError (List TopicRow)
  | [] => .ok []
  | t :: rest =>
    match buildSections MIN_TOPIC_LENGTH_WORDS fetchFile t.files with
    | .error e => .error e
    | .ok sections =>
      (buildTopics MIN_TOPIC_LENGTH_WORDS hashFn repo_id fetchFile rest).map
        (fun others =>
          if sections.isEmpty then others
          else
            { repository_id := repo_id, title := t.title,
              content := String.intercalate "\n\n" sections,
              content_hash := hashFn (String.join sections),
              file_paths := t.files } :: others)

/-- The readme block of `sync_repository` (github_service.py 71–80): find
the first blob whose lowercased path is `readme.md` and fetch it when
present; the fetch is outside the tolerant per-file loop, so any of its
failures escapes to the `except` clause. -/
def readmeFetch (fetchFile : String → Except FetchError String)
    (files : List GithubItem) : Except FetchError (Option String) :=
  match (files.find? (fun item => item.path.toLower == "readme.md")).map
      (fun item => item.path) with
  | none => .ok none
  | some p => (fetchFile p).map (fun c => some c)

/-- `GitHubService.sync_repository` (github_service.py 41–139), with each
collaborator call's outcome passed in. Control flow of the source's `try`
block: list the repository contents; fetch `readme.md` when present (any
failure aborts — this fetch is outside the tolerant per-file loop); run the
topic extractor, whose client swallows its own exceptions and returns
`None`, over which the service's `for` loop then crashes (modelled:
`llm_topics = none` aborts); build the full candidate topic list; only then
delete the repository's stored topics, insert the new rows, and stamp
`last_synced_at`. Any abort is wrapped into a `RepositoryError` by the
`except` clause and reaches none of the state mutations, so the returned
state is the input state. Returns the count of topics created. -/
def sync_repository (MIN_TOPIC_LENGTH_WORDS : ℕ) (hashFn : String → String)
    (repo_id : ℕ) (contents : Except RepositoryError (List GithubItem))
    (fetchFile : String → Except FetchError String)
    (llm_topics : Option (List LLMTopic)) (st : SyncState) (now : DateTime) :
    Except RepositoryError ℕ × SyncState :=
  match contents with
  | .error e => (.error ⟨"Sync failed: " ++ e.message⟩, st)
  | .ok repo_contents =>
    match readmeFetch fetchFile
        (repo_contents.filter (fun item => item.type == "blob")) with
    | .error e =>
      (.error ⟨"Sync failed: " ++
        (match e with | .notFound m => m | .other m => m)⟩, st)
    | .ok _ =>
      match llm_topics with
      | none =>
        (.error ⟨"Sync failed: NoneType object is not iterable"⟩, st)
      | some lts =>
        match buildTopics MIN_TOPIC_LENGTH_WORDS hashFn repo_id fetchFile lts with
        | .error e =>
          (.error ⟨"Sync failed: " ++
            (match e with | .notFound m => m | .other m => m)⟩, st)
        | .ok new_topics =>
          (.ok new_topics.length,
            { topics :=
                (st.topics.filter (fun t => t.repository_id ≠ repo_id))
                  ++ new_topics,
              last_synced_at := some now })

end GitHubService

/-- A run of completed sessions against one `(user_id, topic_id)` pair, the
scoring outcome of each passed to `_update_performance_metrics` the way
`complete_session` does (study_manager.py 227–232): the metrics row produced
by one session is the row the next one finds. `none` when no session ran. -/
def recordSessions (INITIAL_INTERVAL_DAYS user_id topic_id : ℕ)
    (now : DateTime) (sessions : List (ℚ × ℕ)) :
    Option PerformanceMetricsModel :=
  sessions.foldl
    (fun acc sq =>
      some (StudyManager.update_performance_metrics INITIAL_INTERVAL_DAYS acc
        user_id topic_id sq.1 sq.2 now))
    none

/-! ## Theorems -/

/-- Python's `int()` agrees with the floor on nonnegative rationals. -/
theorem pyInt_eq_floor (q : ℚ) (h : 0 ≤ q) : pyInt q = ⌊q⌋ := by
  rw [pyInt, Rat.floor_def, Int.tdiv_eq_ediv (Rat.num_nonneg.mpr h) (by positivity)]

/-- C1: for every session score `s ∈ [0,1]` and previous interval
`d_prev ≥ INITIAL_INTERVAL_DAYS`, the scheduler returns
`now + ⌊d_prev * EXCELLENT_MULTIPLIER⌋` days when `s ≥ 0.9`,
`now + ⌊d_prev * GOOD_MULTIPLIER⌋` days when `0.6 ≤ s < 0.9`, and
`now + INITIAL_INTERVAL_DAYS` days when `s < 0.6`, however large `d_prev`
is. -/
theorem calculate_next_review_three_tier (INITIAL_INTERVAL_DAYS : ℕ)
    (s : ℚ) (d_prev : Int) (now : DateTime) (h0 : 0 ≤ s) (h1 : s ≤ 1)
    (hd : (INITIAL_INTERVAL_DAYS : Int) ≤ d_prev) :
    StudyManager.calculate_next_review INITIAL_INTERVAL_DAYS s d_prev now =
      if EXCELLENT_SCORE_THRESHOLD ≤ s then
        addDays now ⌊(d_prev : ℚ) * EXCELLENT_MULTIPLIER⌋
      else if GOOD_SCORE_THRESHOLD ≤ s then
        addDays now ⌊(d_prev : ℚ) * GOOD_MULTIPLIER⌋
      else
        addDays now (INITIAL_INTERVAL_DAYS : Int) := by
  have hd0 : (0 : Int) ≤ d_prev := le_trans (Int.natCast_nonneg _) hd
  have hq : (0 : ℚ) ≤ (d_prev : ℚ) := by exact_mod_cast hd0
  simp only [StudyManager.calculate_next_review]
  split_ifs with hE hG
  · rw [pyInt_eq_floor _ (mul_nonneg hq (by norm_num [EXCELLENT_MULTIPLIER]))]
  · rw [pyInt_eq_floor _ (mul_nonneg hq (by norm_num [GOOD_MULTIPLIER]))]
  · rfl

/-- Witness for C1 at `INITIAL_INTERVAL_DAYS = 1`, `s = 0.95`, `d_prev = 3`,
`now = 0`. -/
theorem calculate_next_review_three_tier_witness :
    (0 : ℚ) ≤ 19 / 20 ∧ (19 / 20 : ℚ) ≤ 1 ∧ ((1 : ℕ) : Int) ≤ 3 ∧
    StudyManager.calculate_next_review 1 (19 / 20) 3 0 =
      (if EXCELLENT_SCORE_THRESHOLD ≤ (19 / 20 : ℚ) then
        addDays 0 ⌊((3 : Int) : ℚ) * EXCELLENT_MULTIPLIER⌋
      else if GOOD_SCORE_THRESHOLD ≤ (19 / 20 : ℚ) then
        addDays 0 ⌊((3 : Int) : ℚ) * GOOD_MULTIPLIER⌋
      else
        addDays 0 ((1 : ℕ) : Int)) :=
  ⟨by norm_num, by norm_num, by norm_num,
    calculate_next_review_three_tier 1 (19 / 20) 3 0 (by norm_num)
      (by norm_num) (by norm_num)⟩

/-- C7 counterexample: an assessment that is already answered
(`score`, `answered_at` set) is resubmitted; `evaluate_answer` does not
reject it — it succeeds and overwrites the stored evaluation fields, so the
claimed behaviour (rejection leaving the row unchanged) is false on this
input. -/
theorem evaluate_answer_overwrites_counterexample :
    StudyManager.evaluate_answer
        { session_id := 1, question := "q", correct_answer := some "ans",
          user_answer := some "old", score := some 1, is_correct := some true,
          llm_feedback := some "good", answered_at := some 10 }
        "new" { score := 0, is_correct := false, feedback := "wrong" } 20 ≠
      { session_id := 1, question := "q", correct_answer := some "ans",
        user_answer := some "old", score := some 1, is_correct := some true,
        llm_feedback := some "good", answered_at := some 10 } := by
  decide

/-- C7 amended: resubmission is accepted, not rejected — `evaluate_answer`
unconditionally writes the new grading result, and its output is entirely
insensitive to the previously stored evaluation fields (a replace policy);
it touches no performance metrics (the operation's state is the single
assessment row). -/
theorem evaluate_answer_replace_policy (a : AssessmentModel)
    (user_answer : String) (ev : StudyManager.Evaluation) (now : DateTime) :
    (StudyManager.evaluate_answer a user_answer ev now).score = some ev.score ∧
    (StudyManager.evaluate_answer a user_answer ev now).answered_at = some now ∧
    StudyManager.evaluate_answer a user_answer ev now =
      StudyManager.evaluate_answer
        { a with user_answer := none, score := none, is_correct := none,
                 llm_feedback := none, answered_at := none }
        user_answer ev now :=
  ⟨rfl, rfl, rfl⟩

/-- C2: the source derives the previous interval from an already-overwritten
timestamp. Concrete run, `INITIAL_INTERVAL_DAYS = 1`: the stored row has
`last_studied_at = 0` and `next_review_at = 259200` (3 days later), and the
user completes a session scoring 0.95 exactly at the due time
`now = 259200`. The claimed derivation from the *old stored pair* gives
`d_prev = max(1, 3) = 3` (first conjunct) and hence a next review 7 days out
(second conjunct); the code, having already set `last_studied_at = now`,
derives `d_prev = max(1, (259200 − 259200).days) = 1` and schedules only
2 days out (third conjunct), a different instant (fourth conjunct). -/
theorem update_metrics_interval_from_overwritten_timestamp :
    StudyManager.get_last_interval_days 1 (some 0) (some 259200) = 3 ∧
    StudyManager.calculate_next_review 1 (19 / 20) 3 259200 = addDays 259200 7 ∧
    (StudyManager.update_performance_metrics 1
      (some { user_id := 1, topic_id := 1, total_sessions := 1,
              total_correct := 5, total_questions := 5, average_score := 1,
              last_studied_at := some 0, next_review_at := some 259200 })
      1 1 (19 / 20) 5 259200).next_review_at = some (addDays 259200 2) ∧
    addDays 259200 2 ≠ addDays 259200 7 := by
  refine ⟨?_, ?_, ?_, by decide⟩
  · simp only [StudyManager.get_last_interval_days, daysBetween]
    decide
  · simp only [StudyManager.calculate_next_review]
    rw [if_pos (by norm_num [EXCELLENT_SCORE_THRESHOLD])]
    rw [pyInt_eq_floor _ (by norm_num [EXCELLENT_MULTIPLIER])]
    norm_num [EXCELLENT_MULTIPLIER, addDays]
  · simp only [StudyManager.update_performance_metrics, Option.getD,
      StudyManager.calculate_next_review, StudyManager.get_last_interval_days,
      daysBetween]
    rw [if_pos (by norm_num [EXCELLENT_SCORE_THRESHOLD])]
    rw [pyInt_eq_floor _ (by norm_num [EXCELLENT_MULTIPLIER])]
    norm_num [EXCELLENT_MULTIPLIER, addDays]

/-- C3: `complete_session` has no idempotency guard. Concrete run: a session
with one answered (perfect-score) assessment is completed once — the metrics
row records `total_sessions = 1` — and then the very same, already
`completed`, session row is completed again with the same assessments and
the metrics row produced by the first call: `total_sessions` climbs to 2,
so the session is counted twice, not once. -/
theorem complete_session_lacks_idempotency_guard :
    (StudyManager.complete_session 1
      (StudyManager.complete_session 1
        { id := 1, user_id := 1, topic_id := 1, session_type := "manual",
          status := "in_progress", started_at := 0, completed_at := none }
        [{ session_id := 1, question := "q", correct_answer := some "ans",
           user_answer := some "ans", score := some 1, is_correct := some true,
           llm_feedback := some "good", answered_at := some 10 }]
        none 100).2.1
      [{ session_id := 1, question := "q", correct_answer := some "ans",
         user_answer := some "ans", score := some 1, is_correct := some true,
         llm_feedback := some "good", answered_at := some 10 }]
      (some (StudyManager.complete_session 1
        { id := 1, user_id := 1, topic_id := 1, session_type := "manual",
          status := "in_progress", started_at := 0, completed_at := none }
        [{ session_id := 1, question := "q", correct_answer := some "ans",
           user_answer := some "ans", score := some 1, is_correct := some true,
           llm_feedback := some "good", answered_at := some 10 }]
        none 100).2.2)
      200).2.2.total_sessions = 2 ∧
    (StudyManager.complete_session 1
      { id := 1, user_id := 1, topic_id := 1, session_type := "manual",
        status := "in_progress", started_at := 0, completed_at := none }
      [{ session_id := 1, question := "q", correct_answer := some "ans",
         user_answer := some "ans", score := some 1, is_correct := some true,
         llm_feedback := some "good", answered_at := some 10 }]
      none 100).2.1.status = "completed" ∧
    (StudyManager.complete_session 1
      { id := 1, user_id := 1, topic_id := 1, session_type := "manual",
        status := "in_progress", started_at := 0, completed_at := none }
      [{ session_id := 1, question := "q", correct_answer := some "ans",
         user_answer := some "ans", score := some 1, is_correct := some true,
         llm_feedback := some "good", answered_at := some 10 }]
      none 100).2.2.total_sessions = 1 ∧ (2 : ℕ) ≠ 1 := by
  refine ⟨?_, rfl, rfl, by decide⟩
  simp only [StudyManager.complete_session, StudyManager.update_performance_metrics,
    Option.getD, StudyManager.freshMetrics, List.filterMap, List.isEmpty]

/-- C4: for every table of metrics rows, every user and every time `now`,
the due-topic query returns a topic id exactly when some row of that user
carries it with a non-null `next_review_at ≤ now`; rows with a null
`next_review_at` never qualify. The query is a pure function of the rows —
it performs no state mutation. -/
theorem get_topics_for_review_exact (rows : List PerformanceMetricsModel)
    (user_id : ℕ) (now : DateTime) (topic : ℕ) :
    topic ∈ StudyManager.get_topics_for_review rows user_id now ↔
      ∃ m ∈ rows, m.user_id = user_id ∧ m.topic_id = topic ∧
        ∃ t, m.next_review_at = some t ∧ t ≤ now := by
  simp only [StudyManager.get_topics_for_review, List.mem_map, List.mem_filter]
  constructor
  · rintro ⟨m, ⟨hm, hfilt⟩, rfl⟩
    rw [Bool.and_eq_true, beq_iff_eq] at hfilt
    refine ⟨m, hm, hfilt.1, rfl, ?_⟩
    rcases hmr : m.next_review_at with _ | t
    · rw [hmr] at hfilt; exact absurd hfilt.2 (by simp)
    · rw [hmr] at hfilt
      exact ⟨t, rfl, of_decide_eq_true hfilt.2⟩
  · rintro ⟨m, hm, huid, htid, t, hnr, ht⟩
    exact ⟨m, ⟨hm, by simp [huid, hnr, ht]⟩, htid⟩

/-- C5 counterexample: the claimed scenario — a fresh row, a 5-question
session scored 0.8, then a 3-question session scored 0.6. The code adds
`int(num_questions * score)`, which truncates: the second session
contributes `int(1.8) = 1`, so `total_correct` ends at 5, while the claim
demands `round(5*0.8) + round(3*0.6) = 6`. -/
theorem total_correct_truncation_counterexample :
    (StudyManager.update_performance_metrics 1
      (some (StudyManager.update_performance_metrics 1 none 7 9 (4 / 5) 5 0))
      7 9 (3 / 5) 3 86400).total_questions = 8 ∧
    (StudyManager.update_performance_metrics 1
      (some (StudyManager.update_performance_metrics 1 none 7 9 (4 / 5) 5 0))
      7 9 (3 / 5) 3 86400).total_correct = 5 ∧
    round ((5 : ℚ) * (4 / 5)) + round ((3 : ℚ) * (3 / 5)) = 6 ∧
    (StudyManager.update_performance_metrics 1
      (some (StudyManager.update_performance_metrics 1 none 7 9 (4 / 5) 5 0))
      7 9 (3 / 5) 3 86400).total_correct ≠ 6 := by
  have hc : (StudyManager.update_performance_metrics 1
      (some (StudyManager.update_performance_metrics 1 none 7 9 (4 / 5) 5 0))
      7 9 (3 / 5) 3 86400).total_correct = 5 := by
    simp only [StudyManager.update_performance_metrics, Option.getD,
      StudyManager.freshMetrics]
    rw [pyInt_eq_floor _ (by norm_num), pyInt_eq_floor _ (by norm_num)]
    norm_num
  refine ⟨?_, hc, ?_, ?_⟩
  · simp [StudyManager.update_performance_metrics, StudyManager.freshMetrics]
  · rw [round_eq, round_eq]; norm_num
  · rw [hc]; decide

/-- C5 amended: every recorded session adds the *truncation*
`int(num_questions * score)` — not the rounding — to `total_correct`; on
the claimed scenario (5 questions at 0.8, then 3 questions at 0.6 from a
fresh row) this leaves `total_correct = 4 + 1 = 5` and
`total_questions = 8`. -/
theorem total_correct_truncating_increment :
    (∀ (INITIAL_INTERVAL_DAYS : ℕ) (existing : Option PerformanceMetricsModel)
      (user_id topic_id : ℕ) (score : ℚ) (num_questions : ℕ) (now : DateTime),
      (StudyManager.update_performance_metrics INITIAL_INTERVAL_DAYS existing
          user_id topic_id score num_questions now).total_correct =
        (existing.getD (StudyManager.freshMetrics user_id topic_id)).total_correct
          + pyInt ((num_questions : ℚ) * score)) ∧
    (StudyManager.update_performance_metrics 1
      (some (StudyManager.update_performance_metrics 1 none 7 9 (4 / 5) 5 0))
      7 9 (3 / 5) 3 86400).total_correct = 5 ∧
    (StudyManager.update_performance_metrics 1
      (some (StudyManager.update_performance_metrics 1 none 7 9 (4 / 5) 5 0))
      7 9 (3 / 5) 3 86400).total_questions = 8 := by
  refine ⟨fun _ _ _ _ _ _ _ => rfl, ?_, ?_⟩
  · simp only [StudyManager.update_performance_metrics, Option.getD,
      StudyManager.freshMetrics]
    rw [pyInt_eq_floor _ (by norm_num), pyInt_eq_floor _ (by norm_num)]
    norm_num
  · simp [StudyManager.update_performance_metrics, StudyManager.freshMetrics]

/-- One metrics update bumps the session count by exactly one. -/
theorem update_total_sessions (INITIAL_INTERVAL_DAYS user_id topic_id : ℕ)
    (m : PerformanceMetricsModel) (score : ℚ) (num_questions : ℕ)
    (now : DateTime) :
    (StudyManager.update_performance_metrics INITIAL_INTERVAL_DAYS (some m)
        user_id topic_id score num_questions now).total_sessions =
      m.total_sessions + 1 := rfl

/-- One metrics update preserves the running-sum identity: the new mean
times the new session count equals the old mean times the old count plus
the new score. -/
theorem update_avg_mul (INITIAL_INTERVAL_DAYS user_id topic_id : ℕ)
    (m : PerformanceMetricsModel) (score : ℚ) (num_questions : ℕ)
    (now : DateTime) :
    (StudyManager.update_performance_metrics INITIAL_INTERVAL_DAYS (some m)
          user_id topic_id score num_questions now).average_score
        * ((m.total_sessions + 1 : ℕ) : ℚ) =
      m.average_score * (m.total_sessions : ℚ) + score := by
  simp only [StudyManager.update_performance_metrics, Option.getD]
  rw [Nat.add_sub_cancel]
  rw [div_mul_cancel₀]
  exact_mod_cast Nat.succ_ne_zero m.total_sessions

/-- Folding a run of sessions onto an existing row adds one session per
entry and keeps `average_score * total_sessions` equal to the accumulated
sum of session scores. -/
theorem foldl_record (INITIAL_INTERVAL_DAYS user_id topic_id : ℕ)
    (now : DateTime) (sessions : List (ℚ × ℕ)) :
    ∀ m : PerformanceMetricsModel,
      ∃ m', sessions.foldl
          (fun acc sq =>
            some (StudyManager.update_performance_metrics INITIAL_INTERVAL_DAYS
              acc user_id topic_id sq.1 sq.2 now))
          (some m) = some m' ∧
        m'.total_sessions = m.total_sessions + sessions.length ∧
        m'.average_score * (m'.total_sessions : ℚ) =
          m.average_score * (m.total_sessions : ℚ)
            + (sessions.map Prod.fst).sum := by
  induction sessions with
  | nil => exact fun m => ⟨m, rfl, by simp, by simp⟩
  | cons sq rest ih =>
    intro m
    obtain ⟨m', hfold, hn, havg⟩ :=
      ih (StudyManager.update_performance_metrics INITIAL_INTERVAL_DAYS
        (some m) user_id topic_id sq.1 sq.2 now)
    refine ⟨m', hfold, ?_, ?_⟩
    · rw [hn, update_total_sessions, List.length_cons]; omega
    · rw [havg, update_total_sessions, update_avg_mul]
      simp
      ring

/-- C6: after any non-empty run of recorded sessions, `average_score` is the
equal-weight arithmetic mean of the per-session scores — the incremental
update is equivalent to recomputing the mean over all session scores, with
each session weighted the same regardless of its question count — and
`total_sessions` counts the sessions. -/
theorem average_score_is_session_mean (INITIAL_INTERVAL_DAYS user_id topic_id : ℕ)
    (now : DateTime) (sessions : List (ℚ × ℕ)) (h : sessions ≠ []) :
    ∃ m, recordSessions INITIAL_INTERVAL_DAYS user_id topic_id now sessions =
        some m ∧
      m.total_sessions = sessions.length ∧
      m.average_score = (sessions.map Prod.fst).sum / (sessions.length : ℚ) := by
  rcases sessions with _ | ⟨sq, rest⟩
  · exact absurd rfl h
  · obtain ⟨m', hfold, hn, havg⟩ := foldl_record INITIAL_INTERVAL_DAYS user_id
      topic_id now rest
      (StudyManager.update_performance_metrics INITIAL_INTERVAL_DAYS none
        user_id topic_id sq.1 sq.2 now)
    have h1 : (StudyManager.update_performance_metrics INITIAL_INTERVAL_DAYS
        none user_id topic_id sq.1 sq.2 now).total_sessions = 1 := rfl
    have h2 : (StudyManager.update_performance_metrics INITIAL_INTERVAL_DAYS
        none user_id topic_id sq.1 sq.2 now).average_score = sq.1 := by
      simp [StudyManager.update_performance_metrics, StudyManager.freshMetrics]
    have hN : m'.total_sessions = (sq :: rest).length := by
      rw [hn, h1, List.length_cons]; omega
    refine ⟨m', ?_, hN, ?_⟩
    · simpa [recordSessions, List.foldl] using hfold
    · have hne : (((sq :: rest).length : ℕ) : ℚ) ≠ 0 := by
        rw [List.length_cons]; push_cast; positivity
      rw [eq_div_iff hne, ← hN, havg, h1, h2]
      simp

/-- Witness for C6 at the claimed scenario: sessions scored 0.8 (5
questions) then 0.6 (3 questions). -/
theorem average_score_is_session_mean_witness :
    ([((4 : ℚ) / 5, (5 : ℕ)), ((3 : ℚ) / 5, (3 : ℕ))] : List (ℚ × ℕ)) ≠ [] ∧
    ∃ m, recordSessions 1 1 2 0 [((4 : ℚ) / 5, 5), ((3 : ℚ) / 5, 3)] = some m ∧
      m.total_sessions =
        ([((4 : ℚ) / 5, (5 : ℕ)), ((3 : ℚ) / 5, (3 : ℕ))] : List (ℚ × ℕ)).length ∧
      m.average_score =
        (([((4 : ℚ) / 5, (5 : ℕ)), ((3 : ℚ) / 5, (3 : ℕ))] :
            List (ℚ × ℕ)).map Prod.fst).sum /
          ((([((4 : ℚ) / 5, (5 : ℕ)), ((3 : ℚ) / 5, (3 : ℕ))] :
            List (ℚ × ℕ)).length : ℕ) : ℚ) :=
  ⟨by simp, average_score_is_session_mean 1 1 2 0 _ (by simp)⟩

/-- Either a sync leaves the stored state untouched, or it returned a
success count: the destructive update is reachable only through the final,
all-collaborators-succeeded branch. -/
theorem sync_cases (MIN_TOPIC_LENGTH_WORDS : ℕ) (hashFn : String → String)
    (repo_id : ℕ) (contents : Except RepositoryError (List GithubItem))
    (fetchFile : String → Except FetchError String)
    (llm_topics : Option (List LLMTopic)) (st : SyncState) (now : DateTime) :
    (GitHubService.sync_repository MIN_TOPIC_LENGTH_WORDS hashFn repo_id
        contents fetchFile llm_topics st now).2 = st ∨
      ∃ n, (GitHubService.sync_repository MIN_TOPIC_LENGTH_WORDS hashFn repo_id
        contents fetchFile llm_topics st now).1 = .ok n := by
  rcases contents with e | rc
  · exact .inl rfl
  · simp only [GitHubService.sync_repository]
    split
    · exact .inl rfl
    · split
      · exact .inl rfl
      · split
        · exact .inl rfl
        · exact .inr ⟨_, rfl⟩

/-- C10: whenever a sync aborts with a `RepositoryError` — contents listing
failed, readme fetch failed, topic extraction returned nothing usable, or a
per-topic file fetch failed with anything but the tolerated not-found — the
stored state (the topics table and `last_synced_at`) is exactly the input
state: the full candidate list is built before the destructive
delete-and-insert, so no partially-written topic set is ever persisted. -/
theorem sync_repository_error_leaves_state (MIN_TOPIC_LENGTH_WORDS : ℕ)
    (hashFn : String → String) (repo_id : ℕ)
    (contents : Except RepositoryError (List GithubItem))
    (fetchFile : String → Except FetchError String)
    (llm_topics : Option (List LLMTopic)) (st : SyncState) (now : DateTime)
    (e : RepositoryError)
    (h : (GitHubService.sync_repository MIN_TOPIC_LENGTH_WORDS hashFn repo_id
        contents fetchFile llm_topics st now).1 = .error e) :
    (GitHubService.sync_repository MIN_TOPIC_LENGTH_WORDS hashFn repo_id
        contents fetchFile llm_topics st now).2 = st := by
  rcases sync_cases MIN_TOPIC_LENGTH_WORDS hashFn repo_id contents fetchFile
    llm_topics st now with hst | ⟨n, hok⟩
  · exact hst
  · rw [hok] at h; simp at h

/-- Witness for C10: one stored topic, a file fetch failing with an HTTP
error; the sync errors and the stored state is untouched. -/
theorem sync_repository_error_leaves_state_witness :
    (GitHubService.sync_repository 1 (fun _ => "HASH") 1 (Except.ok [])
        (fun _ => Except.error (FetchError.other "HTTP 500"))
        (some [LLMTopic.mk "T" ["a.md"]])
        (SyncState.mk [TopicRow.mk 1 "Old" "c" "h" ["x"]] (some 7)) 50).1 =
      Except.error (RepositoryError.mk ("Sync failed: " ++ "HTTP 500")) ∧
    (GitHubService.sync_repository 1 (fun _ => "HASH") 1 (Except.ok [])
        (fun _ => Except.error (FetchError.other "HTTP 500"))
        (some [LLMTopic.mk "T" ["a.md"]])
        (SyncState.mk [TopicRow.mk 1 "Old" "c" "h" ["x"]] (some 7)) 50).2 =
      SyncState.mk [TopicRow.mk 1 "Old" "c" "h" ["x"]] (some 7) :=
  ⟨rfl, sync_repository_error_leaves_state 1 (fun _ => "HASH") 1 (Except.ok [])
    (fun _ => Except.error (FetchError.other "HTTP 500"))
    (some [LLMTopic.mk "T" ["a.md"]])
    (SyncState.mk [TopicRow.mk 1 "Old" "c" "h" ["x"]] (some 7)) 50
    (RepositoryError.mk ("Sync failed: " ++ "HTTP 500")) rfl⟩

/-- C9: a successful sync is a full replace. When the sync returns a count
`n`, the topic extractor produced groupings `lts`, the candidate build
succeeded with rows `built`, the count is exactly `built.length`, the final
state keeps only the other repositories' topics plus exactly the new rows
with `last_synced_at` stamped, and every topic of the synced repository in
the final state is one of the new rows — no pre-sync topic of that
repository survives. -/
theorem sync_repository_full_replace (MIN_TOPIC_LENGTH_WORDS : ℕ)
    (hashFn : String → String) (repo_id : ℕ)
    (contents : Except RepositoryError (List GithubItem))
    (fetchFile : String → Except FetchError String)
    (llm_topics : Option (List LLMTopic)) (st : SyncState) (now : DateTime)
    (n : ℕ) :
    (GitHubService.sync_repository MIN_TOPIC_LENGTH_WORDS hashFn repo_id
        contents fetchFile llm_topics st now).1 = .ok n →
    ∃ lts built, llm_topics = some lts ∧
      GitHubService.buildTopics MIN_TOPIC_LENGTH_WORDS hashFn repo_id
        fetchFile lts = .ok built ∧
      n = built.length ∧
      GitHubService.sync_repository MIN_TOPIC_LENGTH_WORDS hashFn repo_id
          contents fetchFile llm_topics st now =
        (.ok n, ⟨st.topics.filter (fun t => t.repository_id ≠ repo_id) ++ built,
          some now⟩) ∧
      ∀ t ∈ (st.topics.filter (fun t => t.repository_id ≠ repo_id) ++ built),
        t.repository_id = repo_id → t ∈ built := by
  unfold GitHubService.sync_repository
  rcases contents with e | rc
  · intro h; exact absurd h (by simp)
  · dsimp only
    split
    · intro h; exact absurd h (by simp)
    · split
      · intro h; exact absurd h (by simp)
      · split
        · intro h; exact absurd h (by simp)
        · intro h
          rename_i rfv rov hrf ltsv lts btv built hbt
          obtain rfl : built.length = n := by simpa using h
          refine ⟨lts, built, rfl, hbt, rfl, rfl, ?_⟩
          intro t ht hrep
          rcases List.mem_append.mp ht with hmem | hmem
          · have hne := (List.mem_filter.mp hmem).2
            simp only [decide_eq_true_eq] at hne
            exact absurd hrep hne
          · exact hmem

/-- Witness for C9, the spec's replace scenario: one stored topic of the
repository, two topics extracted; the sync succeeds with count 2. -/
theorem sync_repository_full_replace_witness :
    (GitHubService.sync_repository 0 (fun _ => "HASH") 1 (Except.ok [])
        (fun _ => Except.ok "stuff")
        (some [LLMTopic.mk "T1" ["a.md"], LLMTopic.mk "T2" ["b.md"]])
        (SyncState.mk [TopicRow.mk 1 "Old" "c" "h" ["x"]] none) 99).1 =
      Except.ok 2 ∧
    (∃ lts built,
      (some [LLMTopic.mk "T1" ["a.md"], LLMTopic.mk "T2" ["b.md"]] :
          Option (List LLMTopic)) = some lts ∧
      GitHubService.buildTopics 0 (fun _ => "HASH") 1
        (fun _ => Except.ok "stuff") lts = .ok built ∧
      2 = built.length ∧
      GitHubService.sync_repository 0 (fun _ => "HASH") 1 (Except.ok [])
          (fun _ => Except.ok "stuff")
          (some [LLMTopic.mk "T1" ["a.md"], LLMTopic.mk "T2" ["b.md"]])
          (SyncState.mk [TopicRow.mk 1 "Old" "c" "h" ["x"]] none) 99 =
        (.ok 2, ⟨(SyncState.mk [TopicRow.mk 1 "Old" "c" "h" ["x"]] none).topics.filter
            (fun t => t.repository_id ≠ 1) ++ built, some 99⟩) ∧
      ∀ t ∈ ((SyncState.mk [TopicRow.mk 1 "Old" "c" "h" ["x"]] none).topics.filter
            (fun t => t.repository_id ≠ 1) ++ built),
        t.repository_id = 1 → t ∈ built) :=
  ⟨by simp [GitHubService.sync_repository, GitHubService.readmeFetch,
      GitHubService.buildTopics, GitHubService.buildSections, Except.map],
   sync_repository_full_replace 0 (fun _ => "HASH") 1 (Except.ok [])
    (fun _ => Except.ok "stuff")
    (some [LLMTopic.mk "T1" ["a.md"], LLMTopic.mk "T2" ["b.md"]])
    (SyncState.mk [TopicRow.mk 1 "Old" "c" "h" ["x"]] none) 99 2
    (by simp [GitHubService.sync_repository, GitHubService.readmeFetch,
      GitHubService.buildTopics, GitHubService.buildSections, Except.map])⟩

/-- C8 counterexample: when the question-generation collaborator returns
zero usable items, `generate_quiz_questions` does not fail — it silently
succeeds with an empty assessment list. -/
theorem generate_quiz_questions_empty_ok :
    StudyManager.generate_quiz_questions 1 (Except.ok []) =
      Except.ok ([] : List AssessmentModel) := rfl

/-- C8 amended: `generate_quiz_questions` fails (propagating the
collaborator's `LLMServiceError`) exactly when the collaborator errors;
when the collaborator returns a list — the empty list included — it
succeeds, creating one unanswered assessment per returned item. -/
theorem generate_quiz_questions_propagation (session_id : ℕ) :
    (∀ e : StudyManager.LLMServiceError,
      StudyManager.generate_quiz_questions session_id (Except.error e) =
        Except.error e) ∧
    (∀ qs : List StudyManager.QuestionAnswer,
      ∃ l, StudyManager.generate_quiz_questions session_id (Except.ok qs) =
          Except.ok l ∧
        l.length = qs.length ∧
        ∀ a ∈ l, a.score = none ∧ a.user_answer = none ∧
          a.answered_at = none) := by
  refine ⟨fun e => rfl, fun qs => ⟨_, rfl, by simp, ?_⟩⟩
  intro a ha
  simp only [StudyManager.generate_quiz_questions, List.mem_map] at ha
  obtain ⟨q, _, rfl⟩ := ha
  exact ⟨rfl, rfl, rfl⟩

end StudyAgent
